import Mathlib

/-!
# AguaConecta — verification of the messaging / file-organization core

A shallow embedding of the Convex backend of the AguaConecta client–developer
communication platform, together with proofs about its unread-counter
bookkeeping, file auto-organization, translation fallback, cascade deletion
and migration guards.

The document store is modelled as explicit lists of rows; every mutation is a
pure function from a database value to a database value.  Timestamps, network
outcomes and environment variables are external inputs and appear as explicit
parameters.  Convex `filter(q.eq(q.field(f), v))` semantics are kept: a row
whose optional field is absent (`none`) does not match a comparison against a
concrete value such as `false`.
-/

namespace AguaConecta

/-- The two user roles of the platform (`"client" | "developer"` in the source). -/
inductive Role where
  | client
  | developer
deriving DecidableEq, Repr

/-- JavaScript `a || b` for an optional string: `undefined` and `""` are falsy. -/
def jsOrStr (a : Option String) (b : String) : String :=
  match a with
  | some s => if s = "" then b else s
  | none => b

/-- JavaScript `a || b` where both sides are possibly-absent ids (ids are
never the empty string, so truthiness is just presence). -/
def jsOrId (a b : Option Nat) : Option Nat :=
  match a with
  | some x => some x
  | none => b

/-- `pat` occurs at the head of `s` (helper for the substring check). -/
def leadSeg : List Char → List Char → Bool
  | [], _ => true
  | _ :: _, [] => false
  | a :: as, b :: bs => a == b && leadSeg as bs

/-- `pat` occurs somewhere in `s` (helper for the substring check). -/
def subAt (pat : List Char) : List Char → Bool
  | [] => leadSeg pat []
  | b :: bs => leadSeg pat (b :: bs) || subAt pat bs

/-- JavaScript `s.includes(pat)`: substring containment on strings. -/
def hasSub (s pat : String) : Bool :=
  subAt pat.toList s.toList

/-- JavaScript `s.startsWith(pat)`. -/
def jsStartsWith (s pat : String) : Bool :=
  leadSeg pat.toList s.toList

/-! ## File classification (src/convex/projectFiles.ts `getAutoFolderId`,
mirrored in `autoOrganizeProjectFiles`) -/

/-- The four taxonomy buckets of the file-organization engine. -/
inductive Bucket where
  | images
  | pdfs
  | documents
  | other
deriving DecidableEq, Repr

/-- The document-keyword test of the classifier:
`fileType.includes('document') || ... || fileType.includes('powerpoint')`. -/
def docKeyword (fileType : String) : Bool :=
  hasSub fileType "document" || hasSub fileType "text" || hasSub fileType "word" ||
    hasSub fileType "excel" || hasSub fileType "powerpoint"

/-- The MIME-type classification chain shared by `getAutoFolderId` and
`autoOrganizeProjectFiles`: `image/*` → Images, exactly `application/pdf` →
PDFs, document keywords → Documents, everything else → Other. -/
def classifyBucket (fileType : String) : Bucket :=
  if jsStartsWith fileType "image/" then .images
  else if fileType = "application/pdf" then .pdfs
  else if docKeyword fileType then .documents
  else .other

/-! ## Data model (src/convex/schema.ts)

Rows carry a synthetic numeric `id` standing for the opaque Convex document
id; inserts draw fresh ids from a database counter.  Optional schema fields
are `Option`s; enumeration-valued fields are kept as the literal strings of
the schema. -/

/-- `clients` table row. -/
structure Client where
  id : Nat
  name : String
  email : Option String
  language : String
  tech_level : Option Nat
  timezone : Option String
  created_at : String
  last_active : Option String
deriving DecidableEq, Repr

/-- `projects` table row (`type` is spelled `ptype`: `type` is reserved). -/
structure Project where
  id : Nat
  client_id : Nat
  name : String
  ptype : String
  status : String
  priority : String
  icon : String
  color : String
  description : Option String
  deadline : Option String
  is_archived : Option Bool
  created_at : String
  updated_at : String
deriving DecidableEq, Repr

/-- `threads` table row. -/
structure Thread where
  id : Nat
  project_id : Nat
  title : String
  status : String
  priority : String
  created_by : Role
  last_activity : String
  unread_count_client : Nat
  unread_count_developer : Nat
  is_archived : Option Bool
  created_at : String
deriving DecidableEq, Repr

/-- `messages` table row. -/
structure Message where
  id : Nat
  thread_id : Nat
  author : Role
  content : String
  message_type : String
  is_private : Bool
  is_edited : Bool
  created_at : String
  edited_at : Option String
  original_content : Option String
  original_language : Option String
  translated_content : Option String
  target_language : Option String
  translation_enabled : Option Bool
  file_id : Option Nat
  file_name : Option String
  file_type : Option String
  file_size : Option Nat
  file_url : Option String
deriving DecidableEq, Repr

/-- `project_folders` table row. -/
structure Folder where
  id : Nat
  project_id : Nat
  name : String
  parent_folder_id : Option Nat
  color : Option String
  icon : Option String
  created_by : Role
  created_at : String
deriving DecidableEq, Repr

/-- `project_files` table row. -/
structure ProjectFile where
  id : Nat
  project_id : Nat
  folder_id : Option Nat
  file_id : Nat
  message_id : Option Nat
  file_name : String
  file_type : String
  file_size : Nat
  file_url : Option String
  tags : List String
  uploaded_by : Role
  uploaded_at : String
  moved_at : Option String
deriving DecidableEq, Repr

/-- `notifications` table row (`type` is spelled `ntype`). -/
structure Notification where
  id : Nat
  ntype : String
  recipient : String
  message : String
  thread_id : Option Nat
  project_id : Option Nat
  sent_at : Option String
  status : String
  created_at : String
deriving DecidableEq, Repr

/-- `feedback` table row; `creationTime` models the builtin `_creationTime`. -/
structure Feedback where
  id : Nat
  creationTime : Nat
  category : String
  subject : String
  description : String
  status : String
  priority : String
  developer_notes : Option String
  client_response : Option String
deriving DecidableEq, Repr

/-- `legacy_feedback` table row. -/
structure LegacyFeedback where
  id : Nat
  category : String
  subject : String
  description : String
  status : String
  priority : String
  developer_notes : Option String
  client_response : Option String
  migrated_to_thread : Option Nat
  migration_date : Option String
  created_at : String
deriving DecidableEq, Repr

/-- The document database: one list per table plus a fresh-id counter. -/
structure DB where
  clients : List Client
  projects : List Project
  threads : List Thread
  messages : List Message
  folders : List Folder
  files : List ProjectFile
  notifications : List Notification
  feedback : List Feedback
  legacy : List LegacyFeedback
  nextId : Nat
deriving DecidableEq, Repr

/-! ### Store primitives: insert appends a row and bumps the id counter,
patch rewrites the row(s) with the given id, delete is a filter. -/

def insertClient (db : DB) (c : Client) : DB :=
  { db with clients := db.clients ++ [c], nextId := db.nextId + 1 }

def insertProject (db : DB) (p : Project) : DB :=
  { db with projects := db.projects ++ [p], nextId := db.nextId + 1 }

def insertThread (db : DB) (t : Thread) : DB :=
  { db with threads := db.threads ++ [t], nextId := db.nextId + 1 }

def insertMessage (db : DB) (m : Message) : DB :=
  { db with messages := db.messages ++ [m], nextId := db.nextId + 1 }

def insertFolder (db : DB) (f : Folder) : DB :=
  { db with folders := db.folders ++ [f], nextId := db.nextId + 1 }

def insertFile (db : DB) (f : ProjectFile) : DB :=
  { db with files := db.files ++ [f], nextId := db.nextId + 1 }

def insertNotification (db : DB) (n : Notification) : DB :=
  { db with notifications := db.notifications ++ [n], nextId := db.nextId + 1 }

def insertLegacy (db : DB) (l : LegacyFeedback) : DB :=
  { db with legacy := db.legacy ++ [l], nextId := db.nextId + 1 }

def patchThread (db : DB) (tid : Nat) (f : Thread → Thread) : DB :=
  { db with threads := db.threads.map fun t => if t.id = tid then f t else t }

def patchProject (db : DB) (pid : Nat) (f : Project → Project) : DB :=
  { db with projects := db.projects.map fun p => if p.id = pid then f p else p }

def patchMessage (db : DB) (mid : Nat) (f : Message → Message) : DB :=
  { db with messages := db.messages.map fun m => if m.id = mid then f m else m }

def patchFile (db : DB) (fid : Nat) (f : ProjectFile → ProjectFile) : DB :=
  { db with files := db.files.map fun x => if x.id = fid then f x else x }

def patchNotification (db : DB) (nid : Nat) (f : Notification → Notification) : DB :=
  { db with notifications := db.notifications.map fun n => if n.id = nid then f n else n }

def patchLegacy (db : DB) (lid : Nat) (f : LegacyFeedback → LegacyFeedback) : DB :=
  { db with legacy := db.legacy.map fun l => if l.id = lid then f l else l }

def findThread (db : DB) (tid : Nat) : Option Thread :=
  db.threads.find? fun t => t.id = tid

def findProject (db : DB) (pid : Nat) : Option Project :=
  db.projects.find? fun p => p.id = pid

def findMessage (db : DB) (mid : Nat) : Option Message :=
  db.messages.find? fun m => m.id = mid

/-! ## Notification dispatch (src/convex/notifications.ts `sendTelegramAlert`)

The Telegram HTTP call is external I/O; its outcome, the env-provided chat
id and the formatted date string are explicit inputs. -/

/-- Outcome of the `fetch` to the Telegram Bot API. -/
inductive FetchOutcome where
  | ok
  | httpError (errText : String)
  | exn (errText : String)
deriving DecidableEq, Repr

/-- External inputs of the notification dispatch. -/
structure TelegramExt where
  chatId : Option String
  dateStr : String
  sentAt : String
  fetch : FetchOutcome
deriving DecidableEq, Repr

/-- The formatted alert body of `sendTelegramAlert`. -/
def telegramAlertText (clientName projectName threadTitle truncated dateStr : String)
    (tid : Nat) : String :=
  "🔔 *Nuevo Mensaje*\n\n👤 *Cliente:* " ++ clientName ++ "\n📁 *Proyecto:* " ++ projectName ++
    "\n💬 *Hilo:* " ++ threadTitle ++ "\n\n📝 *Mensaje:*\n" ++ truncated ++
    "\n\n⏰ *Fecha:* " ++ dateStr ++
    "\n\n🔗 *Ver conversación:* https://agualimpia.vercel.app/#/platform/thread/" ++
    toString tid ++ "\n📊 *Dashboard:* https://agualimpia.vercel.app/#/platform/admin"

/-- `sendTelegramAlert`: records a `notifications` row, attempts delivery and
patches the delivery status. -/
def sendTelegramAlert (db : DB) (thread_id project_id : Nat) (message : String)
    (author : Role) (now : String) (ext : TelegramExt) : DB × Option Nat :=
  if author ≠ .client then (db, none)
  else
    match findThread db thread_id, findProject db project_id with
    | some thread, some project =>
      let client := db.clients.find? fun c => c.id = project.client_id
      let truncated :=
        if message.length > 100 then message.take 100 ++ "..." else message
      let text := telegramAlertText (jsOrStr (client.map (·.name)) "Cliente")
        project.name thread.title truncated ext.dateStr thread.id
      let notificationId := db.nextId
      let db := insertNotification db
        { id := notificationId, ntype := "telegram", recipient := jsOrStr ext.chatId "",
          message := text, thread_id := some thread_id, project_id := some project_id,
          sent_at := none, status := "pending", created_at := now }
      let db :=
        match ext.fetch with
        | .ok => patchNotification db notificationId fun n =>
            { n with status := "sent", sent_at := some ext.sentAt }
        | .httpError e => patchNotification db notificationId fun n =>
            { n with status := "failed", message := text ++ "\n\nError: " ++ e }
        | .exn e => patchNotification db notificationId fun n =>
            { n with status := "failed", message := text ++ "\n\nError: " ++ e }
      (db, some notificationId)
    | _, _ => (db, none)

/-! ## Thread/unread bookkeeping (src/convex/messages.ts, src/convex/threads.ts) -/

/-- Arguments of the `sendMessage` mutation. -/
structure SendMessageArgs where
  thread_id : Nat
  content : String
  author : Role
  message_type : Option String
  is_private : Option Bool
  original_content : Option String
  original_language : Option String
  translated_content : Option String
  target_language : Option String
  translation_enabled : Option Bool
deriving DecidableEq, Repr

/-- `sendMessage`: inserts the message, patches the thread's `last_activity`
and unread counters, touches the parent project and (for non-private client
messages) triggers the Telegram alert. -/
def sendMessage (db : DB) (a : SendMessageArgs) (now : String) (ext : TelegramExt) :
    DB × Nat :=
  let messageId := db.nextId
  let db := insertMessage db
    { id := messageId, thread_id := a.thread_id, author := a.author, content := a.content,
      message_type := a.message_type.getD "text", is_private := a.is_private.getD false,
      is_edited := false, created_at := now, edited_at := none,
      original_content := a.original_content, original_language := a.original_language,
      translated_content := a.translated_content, target_language := a.target_language,
      translation_enabled := a.translation_enabled, file_id := none, file_name := none,
      file_type := none, file_size := none, file_url := none }
  match findThread db a.thread_id with
  | none => (db, messageId)
  | some thread =>
    let newUnreadClient :=
      if a.author = .developer ∧ a.is_private.getD false = false then
        thread.unread_count_client + 1
      else if a.author = .client then 0
      else thread.unread_count_client
    let newUnreadDeveloper :=
      if a.author = .client then thread.unread_count_developer + 1
      else if a.author = .developer then 0
      else thread.unread_count_developer
    let db := patchThread db a.thread_id fun t =>
      { t with last_activity := now, unread_count_client := newUnreadClient,
               unread_count_developer := newUnreadDeveloper }
    let db := patchProject db thread.project_id fun p => { p with updated_at := now }
    let db :=
      if a.author = .client ∧ a.is_private.getD false = false then
        match findProject db thread.project_id with
        | some project =>
          (sendTelegramAlert db a.thread_id project.id a.content a.author now ext).1
        | none => db
      else db
    (db, messageId)

/-- Arguments of the `createThread` mutation. -/
structure CreateThreadArgs where
  project_id : Nat
  title : String
  priority : Option String
  initial_message : Option String
  created_by : Option Role
  original_content : Option String
  original_language : Option String
  translated_content : Option String
  target_language : Option String
  translation_enabled : Option Bool
deriving DecidableEq, Repr

/-- `createThread`: inserts the thread with counters seeded from
`created_by`, then (when a non-empty initial message is given) delegates to
`sendMessage`, then touches the project.  The `if (args.initial_message)`
guard treats an empty string as absent, and
`args.translated_content || args.initial_message` is the JS or. -/
def createThread (db : DB) (a : CreateThreadArgs) (now : String) (ext : TelegramExt) :
    DB × Nat :=
  let threadId := db.nextId
  let db := insertThread db
    { id := threadId, project_id := a.project_id, title := a.title, status := "new",
      priority := jsOrStr a.priority "normal", created_by := a.created_by.getD .client,
      last_activity := now,
      unread_count_client := if a.created_by = some .developer then 1 else 0,
      unread_count_developer := if a.created_by = some .client then 1 else 0,
      is_archived := none, created_at := now }
  let db :=
    if a.initial_message.getD "" ≠ "" then
      (sendMessage db
        { thread_id := threadId,
          content := jsOrStr a.translated_content (a.initial_message.getD ""),
          author := a.created_by.getD .client, message_type := some "text",
          is_private := some false, original_content := a.original_content,
          original_language := a.original_language,
          translated_content := a.translated_content,
          target_language := a.target_language,
          translation_enabled := a.translation_enabled } now ext).1
    else db
  let db := patchProject db a.project_id fun p => { p with updated_at := now }
  (db, threadId)

/-- `getTotalUnreadCount`: sums the viewer's counter over the threads kept by
the Convex filter `q.eq(q.field("is_archived"), false)`.  A row whose
optional `is_archived` field is absent compares as `undefined`, not `false`,
so only rows with the field explicitly `false` pass. -/
def getTotalUnreadCount (db : DB) (viewer : Role) : Nat :=
  let threads := db.threads.filter fun t => t.is_archived = some false
  threads.foldl
    (fun total t =>
      total + (if viewer = .developer then t.unread_count_developer
               else t.unread_count_client)) 0

/-- `deleteMessage`: soft delete with an asymmetric authorization guard. -/
def deleteMessage (db : DB) (mid : Nat) (deleter : Role) (now : String) :
    Except String (DB × Option Nat) :=
  match findMessage db mid with
  | none => .ok (db, none)
  | some message =>
    if message.author ≠ deleter ∧ deleter ≠ .developer then
      .error "No puedes eliminar mensajes de otros usuarios"
    else
      .ok (patchMessage db mid fun m =>
        { m with content := "*Mensaje eliminado*", is_edited := true,
                 edited_at := some now }, some mid)

/-! ## File organization engine (src/convex/projectSetup.ts,
src/convex/projectFiles.ts) -/

/-- The fixed default-folder table of `setupDefaultFolders`:
(name, icon, color); the Spanish display name is not persisted. -/
def defaultFolderSpecs : List (String × String × String) :=
  [("Images", "🖼️", "#10B981"),
   ("Documents", "📄", "#3B82F6"),
   ("PDFs", "📑", "#EF4444"),
   ("Other", "📁", "#6B7280")]

/-- `setupDefaultFolders`: creates the four taxonomy folders unless any
folder already exists for the project; returns the new state and the
`foldersCreated` count. -/
def setupDefaultFolders (db : DB) (project_id : Nat) (created_by : Role)
    (now : String) : DB × Nat :=
  let existingFolders := db.folders.filter fun f => f.project_id = project_id
  if existingFolders.length > 0 then (db, 0)
  else
    let r := defaultFolderSpecs.foldl
      (fun (acc : DB × Nat) spec =>
        (insertFolder acc.1
          { id := acc.1.nextId, project_id := project_id, name := spec.1,
            parent_folder_id := none, color := some spec.2.2, icon := some spec.2.1,
            created_by := created_by, created_at := now }, acc.2 + 1))
      (db, 0)
    (r.1, r.2)

/-- The `folderMap` built by `getAutoFolderId` / `autoOrganizeProjectFiles`:
last assignment wins, exactly like repeated JS property assignment. -/
structure FolderMap where
  images : Option Nat
  documents : Option Nat
  pdfs : Option Nat
  other : Option Nat
deriving DecidableEq, Repr

def buildFolderMap (folders : List Folder) : FolderMap :=
  folders.foldl
    (fun m f =>
      if f.name = "Images" then { m with images := some f.id }
      else if f.name = "Documents" then { m with documents := some f.id }
      else if f.name = "PDFs" then { m with pdfs := some f.id }
      else if f.name = "Other" then { m with other := some f.id }
      else m)
    ⟨none, none, none, none⟩

/-- `getAutoFolderId`: lazily bootstraps the default folders (the source
calls `setupDefaultFolders` with `created_by: "client"`), rebuilds the
folder map and picks the target folder with the JS `||` fallback chains. -/
def getAutoFolderId (db : DB) (projectId : Nat) (fileType : String) (now : String) :
    DB × Option Nat :=
  let db := (setupDefaultFolders db projectId .client now).1
  let folders := db.folders.filter fun f => f.project_id = projectId
  let m := buildFolderMap folders
  let headId := folders.head?.map (·.id)
  if jsStartsWith fileType "image/" then (db, jsOrId m.images (jsOrId m.other headId))
  else if fileType = "application/pdf" then (db, jsOrId m.pdfs (jsOrId m.other headId))
  else if docKeyword fileType then (db, jsOrId m.documents (jsOrId m.other headId))
  else (db, jsOrId m.other headId)

/-- One iteration of the `autoOrganizeFiles` loop: look the target folder up
(creating default folders on the way if needed) and re-file the current file
when a target exists. -/
def organizeStep (project_id : Nat) (now : String) (acc : DB × Nat)
    (file : ProjectFile) : DB × Nat :=
  let r := getAutoFolderId acc.1 project_id file.file_type now
  match r.2 with
  | some targetFolderId =>
    (patchFile r.1 file.id fun f =>
      { f with folder_id := some targetFolderId, moved_at := some now }, acc.2 + 1)
  | none => (r.1, acc.2)

/-- `autoOrganizeFiles`: collects the files of the project whose `folder_id`
is unset, then assigns each a folder via `getAutoFolderId`, counting the
files actually patched. -/
def autoOrganizeFiles (db : DB) (project_id : Nat) (now : String) : DB × Nat :=
  let unorganizedFiles :=
    db.files.filter fun f => f.project_id = project_id ∧ f.folder_id = none
  unorganizedFiles.foldl (organizeStep project_id now) (db, 0)

/-! ## Translation adapter (src/utils/translation.ts)

The two remote services are external I/O: the MyMemory outcome is `none` on
timeout / non-200 / non-200 `responseStatus`, otherwise the returned
translation; the LibreTranslate outcome additionally carries the optional
detected language. -/

/-- Language codes of the adapter. -/
inductive Lang where
  | en
  | es
  | auto
deriving DecidableEq, Repr

def Lang.code : Lang → String
  | .en => "en"
  | .es => "es"
  | .auto => "auto"

/-- The `TranslationResult` interface. -/
structure TranslationResult where
  originalText : String
  translatedText : String
  sourceLanguage : String
  targetLanguage : String
  success : Bool
  error : Option String
deriving DecidableEq, Repr

/-- `tryRealTranslation`: MyMemory first, then LibreTranslate, then the
catch-all clean fallback `💬 "text"` (identical for both target languages in
the source).  `data.translatedText || text` and
`data.detectedLanguage?.language || sourceLang` are JS ors. -/
def tryRealTranslation (mm : Option String) (lt : Option (String × Option String))
    (text : String) (targetLang sourceLang : Lang) : TranslationResult :=
  match mm with
  | some t =>
    { originalText := text, translatedText := t, sourceLanguage := sourceLang.code,
      targetLanguage := targetLang.code, success := true, error := none }
  | none =>
    match lt with
    | some (t, detected) =>
      { originalText := text, translatedText := jsOrStr (some t) text,
        sourceLanguage := jsOrStr detected sourceLang.code,
        targetLanguage := targetLang.code, success := true, error := none }
    | none =>
      let cleanMessage :=
        if targetLang = .es then "💬 \"" ++ text ++ "\"" else "💬 \"" ++ text ++ "\""
      { originalText := text, translatedText := cleanMessage,
        sourceLanguage := sourceLang.code, targetLanguage := targetLang.code,
        success := true, error := none }

/-- `translateText`: skips the network when source and target agree (and the
source is not `auto`), otherwise delegates to `tryRealTranslation`. -/
def translateText (mm : Option String) (lt : Option (String × Option String))
    (text : String) (targetLang sourceLang : Lang) : TranslationResult :=
  if sourceLang = targetLang ∧ sourceLang ≠ .auto then
    { originalText := text, translatedText := text, sourceLanguage := sourceLang.code,
      targetLanguage := targetLang.code, success := true, error := none }
  else tryRealTranslation mm lt text targetLang sourceLang

/-- The bundled `en_to_es` phrase table (the duplicate JS object key
`"is working"` collapses to a single entry, as in a JS object literal). -/
def phrasesEnToEs : List (String × String) :=
  [("hello", "hola"), ("hi", "hola"), ("good morning", "buenos días"),
   ("good afternoon", "buenas tardes"), ("good evening", "buenas noches"),
   ("goodbye", "adiós"), ("see you later", "hasta luego"), ("thank you", "gracias"),
   ("thanks", "gracias"), ("please", "por favor"), ("you\x27re welcome", "de nada"),
   ("excuse me", "disculpe"), ("sorry", "lo siento"), ("yes", "sí"), ("no", "no"),
   ("maybe", "tal vez"), ("how are you", "cómo estás"), ("i am fine", "estoy bien"),
   ("what do you think", "qué piensas"), ("let me know", "hazme saber"),
   ("no problem", "no hay problema"), ("of course", "por supuesto"),
   ("i understand", "entiendo"), ("i don\x27t understand", "no entiendo"),
   ("can you help me", "puedes ayudarme"), ("this works", "esto funciona"),
   ("it works", "funciona"), ("it doesn\x27t work", "no funciona"),
   ("is working", "está funcionando"), ("the function", "la función"),
   ("testing", "probando"), ("test", "prueba"), ("bug", "error"),
   ("problem", "problema"), ("issue", "problema"), ("feature", "característica"),
   ("update", "actualización"), ("new", "nuevo"), ("old", "viejo"), ("done", "hecho"),
   ("finished", "terminado"), ("working", "trabajando"), ("complete", "completo"),
   ("ready", "listo")]

/-- The bundled `es_to_en` phrase table. -/
def phrasesEsToEn : List (String × String) :=
  [("hola", "hello"), ("buenos días", "good morning"),
   ("buenas tardes", "good afternoon"), ("buenas noches", "good evening"),
   ("adiós", "goodbye"), ("hasta luego", "see you later"), ("gracias", "thank you"),
   ("por favor", "please"), ("de nada", "you\x27re welcome"),
   ("disculpe", "excuse me"), ("lo siento", "sorry"), ("sí", "yes"), ("no", "no"),
   ("tal vez", "maybe"), ("cómo estás", "how are you"), ("estoy bien", "i am fine"),
   ("qué piensas", "what do you think"), ("hazme saber", "let me know"),
   ("no hay problema", "no problem"), ("por supuesto", "of course"),
   ("entiendo", "i understand"), ("no entiendo", "i don\x27t understand"),
   ("puedes ayudarme", "can you help me"), ("esto funciona", "this works"),
   ("funciona", "it works"), ("no funciona", "it doesn\x27t work"),
   ("está funcionando", "is working"), ("la función", "the function"),
   ("probando", "testing"), ("prueba", "test"), ("error", "bug"),
   ("problema", "problem"), ("característica", "feature"),
   ("actualización", "update"), ("nuevo", "new"), ("viejo", "old"),
   ("hecho", "done"), ("terminado", "finished"), ("trabajando", "working"),
   ("completo", "complete"), ("listo", "ready")]

/-- Exact-phrase dictionary lookup (`phrases[translatedText]` in the source,
after lowercasing / trimming). -/
def lookupPhrase (table : List (String × String)) (key : String) : Option String :=
  (table.find? fun p => p.1 = key).map (·.2)

/-! ## Project deletion cascade (src/convex/projects.ts `deleteProject`)

The source collects the rows matching a foreign key and deletes them one by
one inside the same transaction; on a list model that is a filter on the
key. -/

/-- One iteration of the thread loop of `deleteProject`: delete the thread's
messages, its notifications, then the thread itself. -/
def deleteThreadCascade (db : DB) (t : Thread) : DB :=
  let db := { db with messages := db.messages.filter fun m => ¬ m.thread_id = t.id }
  let db := { db with
    notifications := db.notifications.filter fun n => ¬ n.thread_id = some t.id }
  { db with threads := db.threads.filter fun th => ¬ th.id = t.id }

/-- `deleteProject`: cascades over the project's threads, then removes the
project-level notifications and the project; returns `deleted_threads`. -/
def deleteProject (db : DB) (project_id : Nat) : DB × Nat :=
  let threads := db.threads.filter fun t => t.project_id = project_id
  let db := threads.foldl deleteThreadCascade db
  let db := { db with
    notifications := db.notifications.filter fun n => ¬ n.project_id = some project_id }
  let db := { db with projects := db.projects.filter fun p => ¬ p.id = project_id }
  (db, threads.length)

/-! ## Legacy-feedback migration (src/convex/migration.ts `migrateFeedbackData`) -/

/-- The value returned by `migrateFeedbackData`. -/
structure MigrateResult where
  success : Bool
  client_id : Nat
  migrated_count : Nat
deriving DecidableEq, Repr

/-- The two additional sample projects created by the migration:
(name, type, icon, color, description). -/
def sampleProjectSpecs : List (String × String × String × String × String) :=
  [("Tarjetas Físicas - Rediseño", "cards", "🃏", "#10B981",
    "Rediseño de tarjetas de presentación y materiales físicos para el negocio."),
   ("Sistema Generador de Leads", "lead_gen", "🎯", "#F59E0B",
    "Implementación de sistema automatizado para captura y gestión de prospectos.")]

/-- One iteration of the feedback loop: archive the record into
`legacy_feedback`, create the thread and its seed message(s), then link the
first legacy row with a matching subject to the new thread. -/
def migrateOneFeedback (mainProjectId : Nat) (now : String) (acc : DB × Nat)
    (fb : Feedback) : DB × Nat :=
  let db := acc.1
  let db := insertLegacy db
    { id := db.nextId, category := fb.category, subject := fb.subject,
      description := fb.description, status := fb.status, priority := fb.priority,
      developer_notes := fb.developer_notes, client_response := fb.client_response,
      migrated_to_thread := none, migration_date := some now,
      created_at := toString fb.creationTime }
  let threadId := db.nextId
  let db := insertThread db
    { id := threadId, project_id := mainProjectId, title := fb.subject,
      status :=
        if fb.status = "new" then "new"
        else if fb.status = "in_progress" then "in_progress"
        else if fb.status = "completed" then "resolved"
        else "closed",
      priority := if fb.priority = "high" then "urgent" else "normal",
      created_by := .client, last_activity := now, unread_count_client := 0,
      unread_count_developer := if fb.status = "new" then 1 else 0,
      is_archived := none, created_at := toString fb.creationTime }
  let db := insertMessage db
    { id := db.nextId, thread_id := threadId, author := .client,
      content := fb.description, message_type := "text", is_private := false,
      is_edited := false, created_at := toString fb.creationTime, edited_at := none,
      original_content := none, original_language := none, translated_content := none,
      target_language := none, translation_enabled := none, file_id := none,
      file_name := none, file_type := none, file_size := none, file_url := none }
  let db :=
    if jsOrStr fb.developer_notes "" ≠ "" then
      insertMessage db
        { id := db.nextId, thread_id := threadId, author := .developer,
          content := "📝 **Nota del desarrollador:**\n\n" ++ fb.developer_notes.getD "",
          message_type := "text", is_private := false, is_edited := false,
          created_at := toString fb.creationTime, edited_at := none,
          original_content := none, original_language := none,
          translated_content := none, target_language := none,
          translation_enabled := none, file_id := none, file_name := none,
          file_type := none, file_size := none, file_url := none }
    else db
  let db :=
    match db.legacy.find? (fun lf => lf.subject = fb.subject) with
    | some lf => patchLegacy db lf.id fun l => { l with migrated_to_thread := some threadId }
    | none => db
  (db, acc.2 + 1)

/-- One iteration of the sample-project loop of the migration. -/
def sampleInsert (clientId : Nat) (now : String) (db : DB)
    (spec : String × String × String × String × String) : DB :=
  insertProject db
    { id := db.nextId, client_id := clientId, name := spec.1,
      ptype := spec.2.1, status := "not_started", priority := "medium",
      icon := spec.2.2.1, color := spec.2.2.2.1,
      description := some spec.2.2.2.2, deadline := none, is_archived := none,
      created_at := now, updated_at := now }

/-- The creation branch of `migrateFeedbackData` (run when no client with
the target name exists): client, main project, one thread with seed
message(s) per feedback record, then the two sample projects. -/
def migrateCreate (db : DB) (targetName now : String) : DB × MigrateResult :=
  let clientId := db.nextId
  let db := insertClient db
    { id := clientId, name := targetName, email := some "cliente@agualimpia.com",
      language := "es", tech_level := some 3,
      timezone := some "America/Mexico_City", created_at := now,
      last_active := some now }
  let mainProjectId := db.nextId
  let db := insertProject db
    { id := mainProjectId, client_id := clientId,
      name := "Agua Limpia - Presentación", ptype := "presentation",
      status := "in_progress", priority := "high", icon := "💧", color := "#0EA5E9",
      description := some ("Presentación profesional para sistema de tratamiento" ++
        " de agua con PWA offline y funcionalidad completa."),
      deadline := none, is_archived := none, created_at := now, updated_at := now }
  let existingFeedback := db.feedback
  let r := existingFeedback.foldl (migrateOneFeedback mainProjectId now) (db, 0)
  let db := r.1
  let db := sampleProjectSpecs.foldl (sampleInsert clientId now) db
  (db, { success := true, client_id := clientId, migrated_count := r.2 })

/-- `migrateFeedbackData`: guarded by the existence check on the target
client name (`args.client_name || "Cliente Principal"` is a JS or); when no
such client exists it runs the creation branch `migrateCreate`. -/
def migrateFeedbackData (db : DB) (client_name : Option String) (now : String) :
    DB × MigrateResult :=
  let targetName := jsOrStr client_name "Cliente Principal"
  match db.clients.find? (fun c => c.name = targetName) with
  | some existingClient =>
    (db, { success := false, client_id := existingClient.id, migrated_count := 0 })
  | none => migrateCreate db targetName now

/-! ## Concrete states used to instantiate the theorems -/

/-- The empty database. -/
def emptyDB : DB :=
  { clients := [], projects := [], threads := [], messages := [], folders := [],
    files := [], notifications := [], feedback := [], legacy := [], nextId := 0 }

/-- A fixed external environment for the notification dispatch. -/
def extD : TelegramExt :=
  { chatId := none, dateStr := "D", sentAt := "S", fetch := .ok }

/-- A sample project row (id 0). -/
def projA : Project :=
  { id := 0, client_id := 0, name := "P", ptype := "website", status := "in_progress",
    priority := "medium", icon := "🧪", color := "#fff", description := none,
    deadline := none, is_archived := none, created_at := "T0", updated_at := "T0" }

/-- A sample thread row (id 1, in project 0) with pending unread counts. -/
def thrA : Thread :=
  { id := 1, project_id := 0, title := "Hilo", status := "new", priority := "normal",
    created_by := .client, last_activity := "T0", unread_count_client := 3,
    unread_count_developer := 5, is_archived := none, created_at := "T0" }

/-- A sample message row (id 2, in thread 1) authored by the client. -/
def msgA : Message :=
  { id := 2, thread_id := 1, author := .client, content := "hola",
    message_type := "text", is_private := false, is_edited := false,
    created_at := "T0", edited_at := none, original_content := none,
    original_language := none, translated_content := none, target_language := none,
    translation_enabled := none, file_id := none, file_name := none,
    file_type := none, file_size := none, file_url := none }

/-- A sample notification row (id 3) referencing thread 1 and project 0. -/
def notifA : Notification :=
  { id := 3, ntype := "telegram", recipient := "", message := "m",
    thread_id := some 1, project_id := some 0, sent_at := none,
    status := "pending", created_at := "T0" }

/-- A sample unorganized PNG file row (id 4, in project 0). -/
def fileA : ProjectFile :=
  { id := 4, project_id := 0, folder_id := none, file_id := 0, message_id := none,
    file_name := "a.png", file_type := "image/png", file_size := 10, file_url := none,
    tags := [], uploaded_by := .client, uploaded_at := "T0", moved_at := none }

/-- A sample client row (id 5) with the migration's default target name. -/
def clientA : Client :=
  { id := 5, name := "Cliente Principal", email := none, language := "es",
    tech_level := none, timezone := none, created_at := "T0", last_active := none }

/-- A database holding `projA`, `thrA`, `msgA`, `notifA` and `fileA`. -/
def dbA : DB :=
  { emptyDB with projects := [projA], threads := [thrA], messages := [msgA],
                 notifications := [notifA], files := [fileA], nextId := 6 }

/-- `sendMessage` arguments for a private client-authored message in thread 1. -/
def privateClientMsgArgs : SendMessageArgs :=
  { thread_id := 1, content := "nota", author := .client, message_type := none,
    is_private := some true, original_content := none, original_language := none,
    translated_content := none, target_language := none, translation_enabled := none }

/-- `sendMessage` arguments for a non-private developer message in thread 1. -/
def devMsgArgs : SendMessageArgs :=
  { thread_id := 1, content := "listo", author := .developer, message_type := none,
    is_private := none, original_content := none, original_language := none,
    translated_content := none, target_language := none, translation_enabled := none }

/-- `createThread` arguments: developer-created thread with an initial message. -/
def devThreadWithMsgArgs : CreateThreadArgs :=
  { project_id := 0, title := "Nueva", priority := none,
    initial_message := some "hi", created_by := some .developer,
    original_content := none, original_language := none, translated_content := none,
    target_language := none, translation_enabled := none }

/-- `createThread` arguments: developer-created thread without initial message. -/
def devThreadNoMsgArgs : CreateThreadArgs :=
  { devThreadWithMsgArgs with initial_message := none }

/-- A database holding only project 0. -/
def dbP : DB := { emptyDB with projects := [projA], nextId := 1 }

/-- A custom (non-taxonomy) folder row for project 0. -/
def folderA : Folder :=
  { id := 6, project_id := 0, name := "Custom", parent_folder_id := none,
    color := none, icon := none, created_by := .client, created_at := "T0" }

/-- A database where project 0 already has a folder. -/
def dbF : DB := { emptyDB with folders := [folderA], nextId := 7 }

/-- A database already holding the migration's target client. -/
def dbC : DB := { emptyDB with clients := [clientA], nextId := 6 }

/-- `n`-fold iteration of `setupDefaultFolders` on the same project,
keeping only the state. -/
def setupIter (db : DB) (pid : Nat) (cb : Role) (now : String) : Nat → DB
  | 0 => db
  | n + 1 => (setupDefaultFolders (setupIter db pid cb now n) pid cb now).1

/-! # Theorems -/

/-! ## Generic lemmas about the store primitives -/

/-- `find?` by key on a keyed patch (`map` with an `if` on the key): the found
row is the patched original, provided the patch preserves the key. -/
theorem find_patch_some {α : Type} (key : α → Nat) (f : α → α)
    (hid : ∀ x, key (f x) = key x) (k : Nat) :
    ∀ (l : List α) (m : α), l.find? (fun x => key x = k) = some m →
      (l.map fun x => if key x = k then f x else x).find? (fun x => key x = k) =
        some (f m) := by
  intro l
  induction l with
  | nil => intro m h; simp at h
  | cons a t ih =>
    intro m h
    by_cases ha : key a = k
    · rw [List.find?_cons_of_pos _ (by simpa using ha)] at h
      cases h
      rw [List.map_cons, List.find?_cons_of_pos _ (by simp [ha, hid])]
      simp [ha]
    · rw [List.find?_cons_of_neg _ (by simpa using ha)] at h
      rw [List.map_cons, List.find?_cons_of_neg _ (by simp [ha])]
      exact ih m h

/-- Rows whose key differs from the patched key survive a keyed patch
unchanged. -/
theorem mem_patch_of_key_ne {α : Type} (key : α → Nat) (f : α → α) (k : Nat)
    (l : List α) (m : α) (hm : m ∈ l) (hne : key m ≠ k) :
    m ∈ l.map fun x => if key x = k then f x else x :=
  List.mem_map.mpr ⟨m, hm, by simp [hne]⟩

/-! ## C10 — deleteMessage authorization and soft delete -/

/-- C10 counterexample: the claim says that on success all fields other than
`content` and `is_edited` are unchanged, but `deleteMessage` also rewrites
`edited_at`: deleting message 2 of `dbA` (author deletes their own message)
sets `edited_at` from `none` to the deletion time. -/
theorem deleteMessage_rewrites_edited_at :
    deleteMessage dbA 2 .client "T1" =
      .ok ({ dbA with
               messages := [{ msgA with
                                content := "*Mensaje eliminado*", is_edited := true,
                                edited_at := some "T1" }] },
           some 2)
    ∧ msgA.edited_at = none
    ∧ ¬ (some "T1" = msgA.edited_at) := by
  refine ⟨rfl, rfl, by decide⟩

/-- C10 (amended): `deleteMessage` throws the validation error exactly when
the caller differs from the author and is not the developer; on success the
row is kept but its `content` becomes the fixed marker, `is_edited` is set
and `edited_at` is set to the deletion time, all other fields and all other
rows unchanged. -/
theorem deleteMessage_auth_and_soft_delete (db : DB) (mid : Nat) (deleter : Role)
    (now : String) (m : Message) (hm : findMessage db mid = some m) :
    (m.author ≠ deleter ∧ deleter ≠ .developer →
      deleteMessage db mid deleter now =
        .error "No puedes eliminar mensajes de otros usuarios")
    ∧ (¬ (m.author ≠ deleter ∧ deleter ≠ .developer) →
        ∃ db', deleteMessage db mid deleter now = .ok (db', some mid)
          ∧ db'.messages.length = db.messages.length
          ∧ findMessage db' mid = some { m with
              content := "*Mensaje eliminado*", is_edited := true,
              edited_at := some now }
          ∧ ∀ m' ∈ db.messages, m'.id ≠ mid → m' ∈ db'.messages) := by
  simp only [deleteMessage, hm]
  constructor
  · intro h
    rw [if_pos h]
  · intro h
    rw [if_neg h]
    refine ⟨_, rfl, ?_, ?_, ?_⟩
    · exact (List.length_map _ _)
    · exact find_patch_some Message.id
        (fun x => { x with
          content := "*Mensaje eliminado*", is_edited := true,
          edited_at := some now })
        (fun x => rfl) mid db.messages m hm
    · intro m' hm' hne
      exact mem_patch_of_key_ne Message.id _ mid db.messages m' hm' hne

/-- Witness for C10: the client deletes their own message in `dbA`. -/
theorem deleteMessage_auth_and_soft_delete_witness :
    ∃ db', deleteMessage dbA 2 .client "T1" = .ok (db', some 2)
      ∧ db'.messages.length = dbA.messages.length
      ∧ findMessage db' 2 = some { msgA with
          content := "*Mensaje eliminado*", is_edited := true,
          edited_at := some "T1" }
      ∧ ∀ m' ∈ dbA.messages, m'.id ≠ 2 → m' ∈ db'.messages :=
  (deleteMessage_auth_and_soft_delete dbA 2 .client "T1" msgA rfl).2 (by decide)

/-! ## C1 — sendMessage unread-counter bookkeeping -/

/-- The notification dispatch never touches the `threads` table. -/
theorem sendTelegramAlert_threads (db : DB) (tid pid : Nat) (msg : String)
    (author : Role) (now : String) (ext : TelegramExt) :
    (sendTelegramAlert db tid pid msg author now ext).1.threads = db.threads := by
  unfold sendTelegramAlert
  split
  · rfl
  · split
    · cases ext.fetch <;> rfl
    · rfl

/-- Inserting a message does not change the thread lookup. -/
theorem findThread_insertMessage (db : DB) (m : Message) (tid : Nat) :
    findThread (insertMessage db m) tid = findThread db tid := rfl

/-- The `threads` table after `sendMessage` on a found thread `t`: exactly
the keyed patch with the counter arithmetic of the source. -/
theorem sendMessage_threads_eq (db : DB) (a : SendMessageArgs) (now : String)
    (ext : TelegramExt) (t : Thread) (ht : findThread db a.thread_id = some t) :
    (sendMessage db a now ext).1.threads =
      db.threads.map fun x =>
        if x.id = a.thread_id then
          { x with last_activity := now,
                   unread_count_client :=
                     if a.author = .developer ∧ a.is_private.getD false = false then
                       t.unread_count_client + 1
                     else if a.author = .client then 0
                     else t.unread_count_client,
                   unread_count_developer :=
                     if a.author = .client then t.unread_count_developer + 1
                     else if a.author = .developer then 0
                     else t.unread_count_developer }
        else x := by
  unfold sendMessage
  simp only [findThread_insertMessage, ht]
  split
  · split
    · rw [sendTelegramAlert_threads]
      rfl
    · rfl
  · rfl

/-- C1 counterexample: the claim says a private message leaves both unread
counters untouched regardless of author, but a private client-authored
message in `dbA` (counters 3 / 5) still bumps the developer counter to 6 and
resets the client counter to 0. -/
theorem sendMessage_private_touches_counters :
    findThread (sendMessage dbA privateClientMsgArgs "T1" extD).1 1 =
      some { thrA with last_activity := "T1", unread_count_client := 0,
                       unread_count_developer := 6 }
    ∧ ¬ (6 = thrA.unread_count_developer ∧ 0 = thrA.unread_count_client) := by
  refine ⟨rfl, by decide⟩

/-- C1 (amended): `sendMessage` sets the thread's `last_activity` to the
current time; for a non-private message it increments the counter of the
role opposite to the author and resets the author's own counter to 0; for a
private developer message it leaves the client counter untouched but still
resets the developer counter to 0; for a private client message it still
increments the developer counter and resets the client counter to 0. -/
theorem sendMessage_thread_update (db : DB) (a : SendMessageArgs) (now : String)
    (ext : TelegramExt) (t : Thread) (ht : findThread db a.thread_id = some t) :
    ∃ t', findThread (sendMessage db a now ext).1 a.thread_id = some t'
      ∧ t'.last_activity = now
      ∧ (a.is_private.getD false = false →
          (a.author = .developer →
            t'.unread_count_client = t.unread_count_client + 1
            ∧ t'.unread_count_developer = 0)
          ∧ (a.author = .client →
            t'.unread_count_developer = t.unread_count_developer + 1
            ∧ t'.unread_count_client = 0))
      ∧ (a.is_private.getD false = true →
          (a.author = .developer →
            t'.unread_count_client = t.unread_count_client
            ∧ t'.unread_count_developer = 0)
          ∧ (a.author = .client →
            t'.unread_count_developer = t.unread_count_developer + 1
            ∧ t'.unread_count_client = 0)) := by
  refine ⟨{ t with
      last_activity := now,
      unread_count_client :=
        if a.author = .developer ∧ a.is_private.getD false = false then
          t.unread_count_client + 1
        else if a.author = .client then 0
        else t.unread_count_client,
      unread_count_developer :=
        if a.author = .client then t.unread_count_developer + 1
        else if a.author = .developer then 0
        else t.unread_count_developer }, ?_, rfl, ?_, ?_⟩
  · unfold findThread
    rw [sendMessage_threads_eq db a now ext t ht]
    exact find_patch_some Thread.id
      (fun x => { x with
        last_activity := now,
        unread_count_client :=
          if a.author = .developer ∧ a.is_private.getD false = false then
            t.unread_count_client + 1
          else if a.author = .client then 0
          else t.unread_count_client,
        unread_count_developer :=
          if a.author = .client then t.unread_count_developer + 1
          else if a.author = .developer then 0
          else t.unread_count_developer })
      (fun x => rfl) a.thread_id db.threads t ht
  · intro hpriv
    constructor
    · intro hauth
      simp [hauth, hpriv]
    · intro hauth
      simp [hauth, hpriv]
  · intro hpriv
    constructor
    · intro hauth
      simp [hauth, hpriv]
    · intro hauth
      simp [hauth, hpriv]

/-- Witness for C1: a non-private developer message in `dbA` bumps the
client counter of thread 1 from 3 to 4 and zeroes the developer counter. -/
theorem sendMessage_thread_update_witness :
    ∃ t', findThread (sendMessage dbA devMsgArgs "T1" extD).1 1 = some t'
      ∧ t'.last_activity = "T1"
      ∧ t'.unread_count_client = thrA.unread_count_client + 1
      ∧ t'.unread_count_developer = 0 := by
  obtain ⟨t', h1, h2, h3, _⟩ :=
    sendMessage_thread_update dbA devMsgArgs "T1" extD thrA rfl
  exact ⟨t', h1, h2, ((h3 rfl).1 rfl).1, ((h3 rfl).1 rfl).2⟩

/-- C4: the file classification used for auto-organization is a total,
deterministic function on MIME-type strings: every input yields exactly one
of the four buckets — Images when the type starts with `image/`, PDFs when
it equals `application/pdf`, Documents when it contains one of the document
keywords, Other for everything else (with the earlier conditions taking
priority, as in the source's if-chain); being a function, repeated
application to the same input yields the same bucket. -/
theorem classifyBucket_total_deterministic (s : String) :
    (classifyBucket s = .images ∨ classifyBucket s = .pdfs ∨
      classifyBucket s = .documents ∨ classifyBucket s = .other)
    ∧ (jsStartsWith s "image/" = true → classifyBucket s = .images)
    ∧ (jsStartsWith s "image/" = false → s = "application/pdf" →
        classifyBucket s = .pdfs)
    ∧ (jsStartsWith s "image/" = false → s ≠ "application/pdf" →
        docKeyword s = true → classifyBucket s = .documents)
    ∧ (jsStartsWith s "image/" = false → s ≠ "application/pdf" →
        docKeyword s = false → classifyBucket s = .other) := by
  refine ⟨?_, ?_, ?_, ?_, ?_⟩
  · cases classifyBucket s <;> simp
  · intro h1
    simp [classifyBucket, h1]
  · intro h1 h2
    subst h2
    simp [classifyBucket, h1]
  · intro h1 h2 h3
    simp [classifyBucket, h1, h2, h3]
  · intro h1 h2 h3
    simp [classifyBucket, h1, h2, h3]

/-- Witness for C4 at concrete MIME types. -/
theorem classifyBucket_total_deterministic_witness :
    classifyBucket "application/pdf" = .pdfs ∧ classifyBucket "image/png" = .images := by
  refine ⟨(classifyBucket_total_deterministic "application/pdf").2.2.1 (by decide) rfl, ?_⟩
  exact (classifyBucket_total_deterministic "image/png").2.1 (by decide)

/-! ## C7 — translation failure fallback -/

/-- C7 counterexample: with both remote services failing, translating
"hello" (en → es) yields the fixed quote wrapper, not the bundled phrase
dictionary's exact match "hola" and not the language-tagged placeholder the
claim describes for the no-match case. -/
theorem translateText_no_phrase_fallback :
    (translateText none none "hello" .es .en).translatedText = "💬 \"hello\""
    ∧ lookupPhrase phrasesEnToEs "hello" = some "hola"
    ∧ ("💬 \"hello\"" : String) ≠ "hola"
    ∧ ("💬 \"hello\"" : String) ≠ "[Mensaje en inglés: \"hello\"]" := by
  exact ⟨by decide, by decide, by decide, by decide⟩

/-- C7 (amended): when both remote attempts fail, `translateText` returns a
result (it never throws) with `success = true` and the original text kept in
the fixed wrapper `💬 "text"` — the bundled phrase dictionary is not
consulted; when source and target agree the text is returned unchanged; on
the failure path the translation is never empty. -/
theorem translateText_remote_failure (text : String) (target source : Lang) :
    (¬ (source = target ∧ source ≠ .auto) →
      translateText none none text target source =
        { originalText := text, translatedText := "💬 \"" ++ text ++ "\"",
          sourceLanguage := source.code, targetLanguage := target.code,
          success := true, error := none })
    ∧ (source = target ∧ source ≠ .auto →
      translateText none none text target source =
        { originalText := text, translatedText := text,
          sourceLanguage := source.code, targetLanguage := target.code,
          success := true, error := none })
    ∧ (translateText none none text target source).success = true
    ∧ (¬ (source = target ∧ source ≠ .auto) →
        (translateText none none text target source).translatedText ≠ "") := by
  by_cases h : source = target ∧ source ≠ .auto
  · obtain ⟨heq, hne⟩ := h
    subst heq
    refine ⟨fun hc => absurd ⟨rfl, hne⟩ hc, fun _ => ?_, ?_, fun hc => absurd ⟨rfl, hne⟩ hc⟩
    · simp [translateText, hne]
    · simp [translateText, hne]
  · have hwrap : translateText none none text target source =
        { originalText := text, translatedText := "💬 \"" ++ text ++ "\"",
          sourceLanguage := source.code, targetLanguage := target.code,
          success := true, error := none } := by
      simp [translateText, h, tryRealTranslation]
    refine ⟨fun _ => hwrap, fun hc => absurd hc h, ?_, fun _ => ?_⟩
    · rw [hwrap]
    · rw [hwrap]
      intro heq
      have hlen := congrArg String.length heq
      have h2 : ("💬 \"" : String).length = 3 := by decide
      have h0 : ("" : String).length = 0 := by decide
      have h1 : ("\"" : String).length = 1 := by decide
      rw [String.length_append, String.length_append, h0, h1, h2] at hlen
      omega

/-- Witness for C7 at "hello", en → es. -/
theorem translateText_remote_failure_witness :
    translateText none none "hello" .es .en =
      { originalText := "hello", translatedText := "💬 \"" ++ "hello" ++ "\"",
        sourceLanguage := "en", targetLanguage := "es", success := true,
        error := none } :=
  (translateText_remote_failure "hello" .es .en).1 (by decide)

/-! ## C2 — total unread count vs. never-archived threads -/

/-- C2 failing input: a thread freshly created by `createThread` has its
`is_archived` field unset (`none`), so the Convex filter
`q.eq(q.field("is_archived"), false)` in `getTotalUnreadCount` does not
match it: the developer-created thread carries `unread_count_client = 1`,
yet the client's total is 0, where the claim demands 1. -/
theorem getTotalUnreadCount_misses_fresh_thread :
    ((createThread dbP devThreadNoMsgArgs "T1" extD).1.threads.map
        fun t => (t.is_archived, t.unread_count_client)) = [(none, 1)]
    ∧ getTotalUnreadCount (createThread dbP devThreadNoMsgArgs "T1" extD).1 .client
        = 0 := by
  exact ⟨by decide, by decide⟩

/-! ## C3 — createThread double-counts the initial message -/

/-- C3 failing input: `createThread` seeds the opposite counter to 1
unconditionally and then delegates the initial message to `sendMessage`,
which increments it again: a developer-created thread with an initial
message ends with `unread_count_client = 2` (the claim demands 1) although
only one message exists, and without an initial message it ends with 1 (the
claim demands 0). -/
theorem createThread_double_counts_initial_message :
    findThread (createThread dbP devThreadWithMsgArgs "T1" extD).1 1 =
      some { id := 1, project_id := 0, title := "Nueva", status := "new",
             priority := "normal", created_by := .developer, last_activity := "T1",
             unread_count_client := 2, unread_count_developer := 0,
             is_archived := none, created_at := "T1" }
    ∧ (createThread dbP devThreadWithMsgArgs "T1" extD).1.messages.length = 1
    ∧ (2 : Nat) ≠ 1
    ∧ findThread (createThread dbP devThreadNoMsgArgs "T1" extD).1 1 =
      some { id := 1, project_id := 0, title := "Nueva", status := "new",
             priority := "normal", created_by := .developer, last_activity := "T1",
             unread_count_client := 1, unread_count_developer := 0,
             is_archived := none, created_at := "T1" }
    ∧ (createThread dbP devThreadNoMsgArgs "T1" extD).1.messages.length = 0
    ∧ (1 : Nat) ≠ 0 := by
  exact ⟨by decide, by decide, by decide, by decide, by decide, by decide⟩

/-! ## C5 — setupDefaultFolders idempotence -/

/-- First branch of `setupDefaultFolders`: any existing folder for the
project makes the call a no-op reporting zero created. -/
theorem setupDefaultFolders_existing (db : DB) (pid : Nat) (cb : Role) (now : String)
    (h : (db.folders.filter fun f => f.project_id = pid).length > 0) :
    setupDefaultFolders db pid cb now = (db, 0) := by
  unfold setupDefaultFolders
  rw [if_pos h]

/-- Second branch of `setupDefaultFolders`: with no folder for the project,
exactly the four taxonomy folders are created, in order. -/
theorem setupDefaultFolders_fresh (db : DB) (pid : Nat) (cb : Role) (now : String)
    (h : db.folders.filter (fun f => f.project_id = pid) = []) :
    (setupDefaultFolders db pid cb now).2 = 4
    ∧ ((setupDefaultFolders db pid cb now).1.folders.filter
        fun f => f.project_id = pid).map Folder.name
      = ["Images", "Documents", "PDFs", "Other"] := by
  have hlen : ¬ (db.folders.filter fun f => f.project_id = pid).length > 0 := by
    simp [h]
  unfold setupDefaultFolders
  rw [if_neg hlen]
  constructor
  · rfl
  · simp [defaultFolderSpecs, insertFolder, List.filter_append, h]

/-- A second `setupDefaultFolders` call is always a no-op reporting zero. -/
theorem setupDefaultFolders_twice (db : DB) (pid : Nat) (cb : Role) (now : String) :
    setupDefaultFolders (setupDefaultFolders db pid cb now).1 pid cb now =
      ((setupDefaultFolders db pid cb now).1, 0) := by
  by_cases h : (db.folders.filter fun f => f.project_id = pid).length > 0
  · rw [setupDefaultFolders_existing db pid cb now h]
    exact setupDefaultFolders_existing db pid cb now h
  · have h0 : db.folders.filter (fun f => f.project_id = pid) = [] := by
      simpa using h
    apply setupDefaultFolders_existing
    have hnames := (setupDefaultFolders_fresh db pid cb now h0).2
    have h4 := congrArg List.length hnames
    rw [List.length_map] at h4
    simp only [List.length_cons, List.length_nil] at h4
    omega

/-- C5: `setupDefaultFolders` is idempotent — if any folder already exists
for the project the call is a no-op reporting zero created; otherwise it
creates exactly the four taxonomy folders Images, Documents, PDFs, Other;
hence iterating it `n ≥ 1` times leaves the state of a single call and
every call after the first reports zero created. -/
theorem setupDefaultFolders_idempotent (db : DB) (pid : Nat) (cb : Role)
    (now : String) :
    ((db.folders.filter fun f => f.project_id = pid).length > 0 →
      setupDefaultFolders db pid cb now = (db, 0))
    ∧ (db.folders.filter (fun f => f.project_id = pid) = [] →
      (setupDefaultFolders db pid cb now).2 = 4
      ∧ ((setupDefaultFolders db pid cb now).1.folders.filter
          fun f => f.project_id = pid).map Folder.name
        = ["Images", "Documents", "PDFs", "Other"])
    ∧ (∀ n, 1 ≤ n → setupIter db pid cb now n = (setupDefaultFolders db pid cb now).1)
    ∧ (∀ n, 1 ≤ n →
        (setupDefaultFolders (setupIter db pid cb now n) pid cb now).2 = 0) := by
  have hiter : ∀ n, 1 ≤ n →
      setupIter db pid cb now n = (setupDefaultFolders db pid cb now).1 := by
    intro n
    induction n with
    | zero => intro hn; exact absurd hn (by omega)
    | succ k ih =>
      intro _
      by_cases hk : 1 ≤ k
      · show (setupDefaultFolders (setupIter db pid cb now k) pid cb now).1 = _
        rw [ih hk, setupDefaultFolders_twice db pid cb now]
      · have hk0 : k = 0 := by omega
        subst hk0
        rfl
  refine ⟨setupDefaultFolders_existing db pid cb now,
          setupDefaultFolders_fresh db pid cb now, hiter, ?_⟩
  intro n hn
  rw [hiter n hn, setupDefaultFolders_twice db pid cb now]

/-- Witness for C5: a project with an existing folder is a no-op, a fresh
project gets four folders created. -/
theorem setupDefaultFolders_idempotent_witness :
    setupDefaultFolders dbF 0 .client "T1" = (dbF, 0)
    ∧ (setupDefaultFolders emptyDB 0 .client "T1").2 = 4 :=
  ⟨(setupDefaultFolders_idempotent dbF 0 .client "T1").1 (by decide),
   ((setupDefaultFolders_idempotent emptyDB 0 .client "T1").2.1 (by decide)).1⟩

/-! ## C9 — migrateFeedbackData existence guard -/

/-- One feedback-migration iteration never touches the `clients` table. -/
theorem migrateOneFeedback_clients (mpid : Nat) (now : String) (acc : DB × Nat)
    (fb : Feedback) :
    (migrateOneFeedback mpid now acc fb).1.clients = acc.1.clients := by
  unfold migrateOneFeedback
  dsimp only
  repeat' split
  all_goals rfl

/-- One feedback-migration iteration never touches the `projects` table. -/
theorem migrateOneFeedback_projects (mpid : Nat) (now : String) (acc : DB × Nat)
    (fb : Feedback) :
    (migrateOneFeedback mpid now acc fb).1.projects = acc.1.projects := by
  unfold migrateOneFeedback
  dsimp only
  repeat' split
  all_goals rfl

/-- One feedback-migration iteration creates exactly one thread. -/
theorem migrateOneFeedback_threads (mpid : Nat) (now : String) (acc : DB × Nat)
    (fb : Feedback) :
    (migrateOneFeedback mpid now acc fb).1.threads.length
      = acc.1.threads.length + 1 := by
  unfold migrateOneFeedback
  dsimp only
  repeat' split
  all_goals simp [insertLegacy, insertThread, insertMessage, patchLegacy]

/-- One feedback-migration iteration creates at least one message. -/
theorem migrateOneFeedback_messages (mpid : Nat) (now : String) (acc : DB × Nat)
    (fb : Feedback) :
    acc.1.messages.length + 1 ≤ (migrateOneFeedback mpid now acc fb).1.messages.length := by
  unfold migrateOneFeedback
  dsimp only
  repeat' split
  all_goals simp [insertLegacy, insertThread, insertMessage, patchLegacy]

/-- The feedback loop never touches the `clients` table. -/
theorem migrateLoop_clients (mpid : Nat) (now : String) :
    ∀ (fbs : List Feedback) (db0 : DB) (k : Nat),
      (fbs.foldl (migrateOneFeedback mpid now) (db0, k)).1.clients = db0.clients := by
  intro fbs
  induction fbs with
  | nil => intro db0 k; rfl
  | cons fb tl ih =>
    intro db0 k
    rw [List.foldl_cons]
    exact (ih _ _).trans (migrateOneFeedback_clients mpid now (db0, k) fb)

/-- The feedback loop never touches the `projects` table. -/
theorem migrateLoop_projects (mpid : Nat) (now : String) :
    ∀ (fbs : List Feedback) (db0 : DB) (k : Nat),
      (fbs.foldl (migrateOneFeedback mpid now) (db0, k)).1.projects = db0.projects := by
  intro fbs
  induction fbs with
  | nil => intro db0 k; rfl
  | cons fb tl ih =>
    intro db0 k
    rw [List.foldl_cons]
    exact (ih _ _).trans (migrateOneFeedback_projects mpid now (db0, k) fb)

/-- The feedback loop creates one thread per feedback record. -/
theorem migrateLoop_threads (mpid : Nat) (now : String) :
    ∀ (fbs : List Feedback) (db0 : DB) (k : Nat),
      (fbs.foldl (migrateOneFeedback mpid now) (db0, k)).1.threads.length
        = db0.threads.length + fbs.length := by
  intro fbs
  induction fbs with
  | nil => intro db0 k; simp
  | cons fb tl ih =>
    intro db0 k
    rw [List.foldl_cons]
    have h1 := ih (migrateOneFeedback mpid now (db0, k) fb).1
      (migrateOneFeedback mpid now (db0, k) fb).2
    have h2 := migrateOneFeedback_threads mpid now (db0, k) fb
    rw [h1, h2]
    simp [Nat.add_assoc, Nat.add_comm 1 tl.length]

/-- The feedback loop creates at least one message per feedback record. -/
theorem migrateLoop_messages (mpid : Nat) (now : String) :
    ∀ (fbs : List Feedback) (db0 : DB) (k : Nat),
      db0.messages.length + fbs.length
        ≤ (fbs.foldl (migrateOneFeedback mpid now) (db0, k)).1.messages.length := by
  intro fbs
  induction fbs with
  | nil => intro db0 k; simp
  | cons fb tl ih =>
    intro db0 k
    rw [List.foldl_cons]
    have h1 := ih (migrateOneFeedback mpid now (db0, k) fb).1
      (migrateOneFeedback mpid now (db0, k) fb).2
    have h2 : db0.messages.length + 1
        ≤ (migrateOneFeedback mpid now (db0, k) fb).1.messages.length :=
      migrateOneFeedback_messages mpid now (db0, k) fb
    rw [Prod.mk.eta] at h1
    simp only [List.length_cons]
    omega

/-- Convenience form of the message-count bound with the numbers pulled
out, so it unifies easily at composite database expressions. -/
theorem migrateLoop_messages_le (mpid : Nat) (now : String) (fbs : List Feedback)
    (db0 : DB) (k : Nat) (n m : Nat) (hn : n = db0.messages.length)
    (hm : m = fbs.length) :
    n + m ≤ (fbs.foldl (migrateOneFeedback mpid now) (db0, k)).1.messages.length := by
  subst hn
  subst hm
  exact migrateLoop_messages mpid now fbs db0 k

/-- The sample-project loop never touches the `clients` table. -/
theorem sampleFold_clients (cid : Nat) (now : String) (d : DB) :
    (sampleProjectSpecs.foldl (sampleInsert cid now) d).clients = d.clients := rfl

/-- The sample-project loop adds exactly two projects. -/
theorem sampleFold_projects (cid : Nat) (now : String) (d : DB) :
    (sampleProjectSpecs.foldl (sampleInsert cid now) d).projects.length
      = d.projects.length + 2 := by
  simp [sampleProjectSpecs, sampleInsert, insertProject]

/-- The sample-project loop never touches the `threads` table. -/
theorem sampleFold_threads (cid : Nat) (now : String) (d : DB) :
    (sampleProjectSpecs.foldl (sampleInsert cid now) d).threads = d.threads := rfl

/-- The sample-project loop never touches the `messages` table. -/
theorem sampleFold_messages (cid : Nat) (now : String) (d : DB) :
    (sampleProjectSpecs.foldl (sampleInsert cid now) d).messages = d.messages := rfl

/-- C9: `migrateFeedbackData` is guarded by the existence check — if a
client with the target name exists, the database is returned untouched with
the existing client's id; only when no such client exists does it create the
client (exactly one, with the target name), the three projects, one thread
per legacy feedback record and at least one message per record. -/
theorem migrateFeedbackData_guarded (db : DB) (client_name : Option String)
    (now : String) :
    (∀ c, db.clients.find? (fun x => x.name = jsOrStr client_name "Cliente Principal")
        = some c →
      migrateFeedbackData db client_name now =
        (db, { success := false, client_id := c.id, migrated_count := 0 }))
    ∧ (db.clients.find? (fun x => x.name = jsOrStr client_name "Cliente Principal")
        = none →
      (migrateFeedbackData db client_name now).2.success = true
      ∧ (migrateFeedbackData db client_name now).1.clients.length
          = db.clients.length + 1
      ∧ (∃ c ∈ (migrateFeedbackData db client_name now).1.clients,
          c.name = jsOrStr client_name "Cliente Principal")
      ∧ (migrateFeedbackData db client_name now).1.projects.length
          = db.projects.length + 3
      ∧ (migrateFeedbackData db client_name now).1.threads.length
          = db.threads.length + db.feedback.length
      ∧ db.messages.length + db.feedback.length
          ≤ (migrateFeedbackData db client_name now).1.messages.length) := by
  constructor
  · intro c hc
    simp only [migrateFeedbackData, hc]
  · intro hn
    simp only [migrateFeedbackData, hn, migrateCreate]
    refine ⟨trivial, ?_, ?_, ?_, ?_, ?_⟩
    · rw [sampleFold_clients, migrateLoop_clients]
      simp [insertClient, insertProject]
    · rw [sampleFold_clients, migrateLoop_clients]
      refine ⟨{ id := db.nextId, name := jsOrStr client_name "Cliente Principal",
                email := some "cliente@agualimpia.com", language := "es",
                tech_level := some 3, timezone := some "America/Mexico_City",
                created_at := now, last_active := some now }, ?_, rfl⟩
      simp [insertClient, insertProject]
    · rw [sampleFold_projects, migrateLoop_projects]
      simp [insertClient, insertProject]
    · rw [sampleFold_threads, migrateLoop_threads]
      rfl
    · rw [sampleFold_messages]
      exact migrateLoop_messages_le _ _ _ _ _ _ _ rfl rfl

/-- Witness for C9: `dbC` already holds the target client, so the call is a
no-op returning the existing id. -/
theorem migrateFeedbackData_guarded_witness :
    migrateFeedbackData dbC none "T1" =
      (dbC, { success := false, client_id := clientA.id, migrated_count := 0 }) :=
  (migrateFeedbackData_guarded dbC none "T1").1 clientA (by decide)

/-! ## C8 — deleteProject cascade completeness -/

/-- The thread-cascade loop only ever removes rows. -/
theorem cascadeFold_subsets (ts : List Thread) :
    ∀ (db : DB),
      ((ts.foldl deleteThreadCascade db).messages ⊆ db.messages)
      ∧ ((ts.foldl deleteThreadCascade db).notifications ⊆ db.notifications)
      ∧ ((ts.foldl deleteThreadCascade db).threads ⊆ db.threads)
      ∧ ((ts.foldl deleteThreadCascade db).projects = db.projects) := by
  induction ts with
  | nil => intro db; exact ⟨fun _ h => h, fun _ h => h, fun _ h => h, rfl⟩
  | cons hd tl ih =>
    intro db
    rw [List.foldl_cons]
    obtain ⟨hm, hn, ht, hp⟩ := ih (deleteThreadCascade db hd)
    refine ⟨fun x hx => ?_, fun x hx => ?_, fun x hx => ?_, ?_⟩
    · exact List.filter_subset' _ (hm hx)
    · exact List.filter_subset' _ (hn hx)
    · exact List.filter_subset' _ (ht hx)
    · exact hp

/-- Every thread of the cascade list, its messages and its notifications are
gone after the loop. -/
theorem cascadeFold_removed (ts : List Thread) :
    ∀ (db : DB) (t : Thread), t ∈ ts →
      (∀ m ∈ (ts.foldl deleteThreadCascade db).messages, m.thread_id ≠ t.id)
      ∧ (∀ n ∈ (ts.foldl deleteThreadCascade db).notifications,
          n.thread_id ≠ some t.id)
      ∧ (∀ th ∈ (ts.foldl deleteThreadCascade db).threads, th.id ≠ t.id) := by
  induction ts with
  | nil => intro db t ht; cases ht
  | cons hd tl ih =>
    intro db t ht
    rw [List.foldl_cons]
    rcases List.mem_cons.mp ht with rfl | htl
    · obtain ⟨hm, hn, hth, _⟩ := cascadeFold_subsets tl (deleteThreadCascade db t)
      refine ⟨fun m hmem => ?_, fun n hmem => ?_, fun th hmem => ?_⟩
      · have hm' : m ∈ (deleteThreadCascade db t).messages := hm hmem
        have : m ∈ db.messages.filter fun m => ¬ m.thread_id = t.id := hm'
        simp only [List.mem_filter, decide_not, decide_eq_true_eq,
          Bool.not_eq_true', decide_eq_false_iff_not] at this
        exact this.2
      · have hn' : n ∈ (deleteThreadCascade db t).notifications := hn hmem
        have h2 : n ∈ db.notifications.filter fun n => ¬ n.thread_id = some t.id := hn'
        simp only [List.mem_filter, decide_not, Bool.not_eq_true',
          decide_eq_false_iff_not] at h2
        exact h2.2
      · have ht' : th ∈ (deleteThreadCascade db t).threads := hth hmem
        have h2 : th ∈ db.threads.filter fun x => ¬ x.id = t.id := by
          simpa [deleteThreadCascade] using ht'
        simp only [List.mem_filter, decide_not, Bool.not_eq_true',
          decide_eq_false_iff_not] at h2
        exact h2.2
    · exact ih (deleteThreadCascade db hd) t htl

/-- C8: after `deleteProject`, no project with the deleted id, no thread of
the project, no message of any of the project's threads, and no
notification referencing the project or any of its threads remains — every
lookup by those foreign keys comes back empty. -/
theorem deleteProject_cascades (db : DB) (pid : Nat) :
    (∀ p ∈ (deleteProject db pid).1.projects, p.id ≠ pid)
    ∧ (∀ t ∈ (deleteProject db pid).1.threads, t.project_id ≠ pid)
    ∧ (∀ m ∈ (deleteProject db pid).1.messages,
        ∀ t ∈ db.threads, t.project_id = pid → m.thread_id ≠ t.id)
    ∧ (∀ n ∈ (deleteProject db pid).1.notifications,
        n.project_id ≠ some pid
        ∧ ∀ t ∈ db.threads, t.project_id = pid → n.thread_id ≠ some t.id) := by
  refine ⟨?_, ?_, ?_, ?_⟩
  · intro p hp
    have h2 : p ∈ ((db.threads.filter fun t => t.project_id = pid).foldl
        deleteThreadCascade db).projects.filter fun p => ¬ p.id = pid := hp
    simp only [List.mem_filter, decide_not, Bool.not_eq_true',
      decide_eq_false_iff_not] at h2
    exact h2.2
  · intro t htm
    intro hpid
    have htmem : t ∈ ((db.threads.filter fun t => t.project_id = pid).foldl
        deleteThreadCascade db).threads := htm
    have hdb : t ∈ db.threads :=
      (cascadeFold_subsets (db.threads.filter fun t => t.project_id = pid) db).2.2.1
        htmem
    have hlist : t ∈ db.threads.filter fun t => t.project_id = pid := by
      simp [List.mem_filter, hdb, hpid]
    exact (cascadeFold_removed _ db t hlist).2.2 t htmem rfl
  · intro m hm t htdb hproj
    have hmem : m ∈ ((db.threads.filter fun t => t.project_id = pid).foldl
        deleteThreadCascade db).messages := hm
    have hlist : t ∈ db.threads.filter fun t => t.project_id = pid := by
      simp [List.mem_filter, htdb, hproj]
    exact (cascadeFold_removed _ db t hlist).1 m hmem
  · intro n hn
    have h2 : n ∈ ((db.threads.filter fun t => t.project_id = pid).foldl
        deleteThreadCascade db).notifications.filter
          fun n => ¬ n.project_id = some pid := hn
    simp only [List.mem_filter, decide_not, Bool.not_eq_true',
      decide_eq_false_iff_not] at h2
    refine ⟨h2.2, ?_⟩
    intro t htdb hproj
    have hlist : t ∈ db.threads.filter fun t => t.project_id = pid := by
      simp [List.mem_filter, htdb, hproj]
    exact (cascadeFold_removed _ db t hlist).2.1 n h2.1

/-- Witness for C8: deleting the absent project 99 from `dbA` leaves thread
1 and notification 3 in place, and the theorem instantiates on them. -/
theorem deleteProject_cascades_witness :
    thrA.project_id ≠ 99 ∧ notifA.project_id ≠ some 99 :=
  ⟨(deleteProject_cascades dbA 99).2.1 thrA (by decide),
   ((deleteProject_cascades dbA 99).2.2.2 notifA (by decide)).1⟩

/-! ## C6 — autoOrganizeFiles idempotence -/

/-- `setupDefaultFolders` never touches the `files` table. -/
theorem setupDefaultFolders_files (db : DB) (pid : Nat) (cb : Role) (now : String) :
    (setupDefaultFolders db pid cb now).1.files = db.files := by
  unfold setupDefaultFolders
  dsimp only
  split
  · rfl
  · rfl

/-- After `setupDefaultFolders` the project always has at least one folder. -/
theorem setupDefaultFolders_folders_ne_nil (db : DB) (pid : Nat) (cb : Role)
    (now : String) :
    (setupDefaultFolders db pid cb now).1.folders.filter
      (fun f => f.project_id = pid) ≠ [] := by
  unfold setupDefaultFolders
  dsimp only
  split
  · intro hnil
    rename_i h
    rw [hnil] at h
    simp at h
  · simp [defaultFolderSpecs, insertFolder, List.filter_append]

/-- `getAutoFolderId` never touches the `files` table. -/
theorem getAutoFolderId_files (db : DB) (pid : Nat) (ft : String) (now : String) :
    (getAutoFolderId db pid ft now).1.files = db.files := by
  unfold getAutoFolderId
  dsimp only
  repeat' split
  all_goals exact setupDefaultFolders_files db pid .client now

/-- A JS or of optional ids is present when its fallback is. -/
theorem jsOrId_isSome (a b : Option Nat) (hb : ∃ y, b = some y) :
    ∃ y, jsOrId a b = some y := by
  cases a with
  | some x => exact ⟨x, rfl⟩
  | none => simpa [jsOrId] using hb

/-- `getAutoFolderId` always returns a target folder: after the lazy
bootstrap the project has at least one folder, and every branch of the
`||`-fallback chain ends in the first folder of the project. -/
theorem getAutoFolderId_isSome (db : DB) (pid : Nat) (ft : String) (now : String) :
    ∃ fid, (getAutoFolderId db pid ft now).2 = some fid := by
  unfold getAutoFolderId
  dsimp only
  obtain ⟨a, as, ha⟩ :=
    List.exists_cons_of_ne_nil (setupDefaultFolders_folders_ne_nil db pid .client now)
  rw [ha]
  repeat' split
  all_goals
    first
    | exact jsOrId_isSome _ _ (jsOrId_isSome _ _ ⟨a.id, rfl⟩)
    | exact jsOrId_isSome _ _ ⟨a.id, rfl⟩

/-- The `organizeStep` equation once the target folder is known. -/
theorem organizeStep_eq (pid : Nat) (now : String) (db : DB) (k : Nat)
    (hd : ProjectFile) (fid : Nat)
    (hfid : (getAutoFolderId db pid hd.file_type now).2 = some fid) :
    organizeStep pid now (db, k) hd =
      (patchFile (getAutoFolderId db pid hd.file_type now).1 hd.id
        (fun f => { f with folder_id := some fid, moved_at := some now }), k + 1) := by
  unfold organizeStep
  dsimp only
  rw [hfid]

/-- A file whose id never occurs in the work list survives the organize
loop unchanged. -/
theorem organizeLoop_preserves (pid : Nat) (now : String) :
    ∀ (L : List ProjectFile) (db : DB) (k : Nat) (f : ProjectFile),
      f ∈ db.files → (∀ l ∈ L, f.id ≠ l.id) →
      f ∈ (L.foldl (organizeStep pid now) (db, k)).1.files := by
  intro L
  induction L with
  | nil => intro db k f hf _; exact hf
  | cons hd tl ih =>
    intro db k f hf hne
    rw [List.foldl_cons]
    obtain ⟨fid, hfid⟩ := getAutoFolderId_isSome db pid hd.file_type now
    rw [organizeStep_eq pid now db k hd fid hfid]
    apply ih
    · have hf' : f ∈ (getAutoFolderId db pid hd.file_type now).1.files := by
        rw [getAutoFolderId_files]
        exact hf
      exact mem_patch_of_key_ne ProjectFile.id _ hd.id _ f hf'
        (hne hd (List.mem_cons_self hd tl))
    · intro l hl
      exact hne l (List.mem_cons_of_mem _ hl)

/-- If every unorganized file of the project occurs in the work list, then
after the loop no file of the project is left unorganized. -/
theorem organizeLoop_organizes (pid : Nat) (now : String) :
    ∀ (L : List ProjectFile) (db : DB) (k : Nat),
      (∀ f ∈ db.files, f.project_id = pid → f.folder_id = none →
        f.id ∈ L.map ProjectFile.id) →
      ∀ g ∈ (L.foldl (organizeStep pid now) (db, k)).1.files,
        g.project_id = pid → g.folder_id ≠ none := by
  intro L
  induction L with
  | nil =>
    intro db k hinv g hg hpid hnone
    have := hinv g hg hpid hnone
    simp at this
  | cons hd tl ih =>
    intro db k hinv
    rw [List.foldl_cons]
    obtain ⟨fid, hfid⟩ := getAutoFolderId_isSome db pid hd.file_type now
    rw [organizeStep_eq pid now db k hd fid hfid]
    apply ih
    intro f hf hfpid hfnone
    have hmap : f ∈ (getAutoFolderId db pid hd.file_type now).1.files.map
        fun x => if x.id = hd.id then
          { x with folder_id := some fid, moved_at := some now } else x := hf
    rw [getAutoFolderId_files] at hmap
    obtain ⟨x, hx, hxeq⟩ := List.mem_map.mp hmap
    by_cases hxid : x.id = hd.id
    · rw [if_pos hxid] at hxeq
      rw [← hxeq] at hfnone
      simp at hfnone
    · rw [if_neg hxid] at hxeq
      subst hxeq
      have hmem := hinv x hx hfpid hfnone
      simp only [List.map_cons, List.mem_cons] at hmem
      rcases hmem with heq | hmem
      · exact absurd heq hxid
      · simpa using hmem

/-- C6: `autoOrganizeFiles` assigns folders only to files of the project
whose `folder_id` is unset; already-foldered files and files of other
projects are untouched; afterwards every file of the project has a folder,
so a second run finds nothing to organize and reports zero. -/
theorem autoOrganizeFiles_idempotent (db : DB) (pid : Nat) (now : String)
    (hids : (db.files.map ProjectFile.id).Nodup) :
    (∀ f ∈ db.files, f.folder_id ≠ none → f ∈ (autoOrganizeFiles db pid now).1.files)
    ∧ (∀ f ∈ db.files, f.project_id ≠ pid →
        f ∈ (autoOrganizeFiles db pid now).1.files)
    ∧ (∀ g ∈ (autoOrganizeFiles db pid now).1.files,
        g.project_id = pid → g.folder_id ≠ none)
    ∧ autoOrganizeFiles (autoOrganizeFiles db pid now).1 pid now =
        ((autoOrganizeFiles db pid now).1, 0) := by
  have hinj := List.inj_on_of_nodup_map hids
  have huntouched : ∀ f ∈ db.files, (f.folder_id ≠ none ∨ f.project_id ≠ pid) →
      f ∈ (autoOrganizeFiles db pid now).1.files := by
    intro f hf hcase
    apply organizeLoop_preserves pid now _ db 0 f hf
    intro l hl
    have hl' := List.mem_filter.mp hl
    have hlpred := hl'.2
    simp only [decide_eq_true_eq] at hlpred
    intro hid
    have : f = l := hinj hf hl'.1 hid
    subst this
    rcases hcase with hfold | hproj
    · exact hfold hlpred.2
    · exact hproj hlpred.1
  have horg : ∀ g ∈ (autoOrganizeFiles db pid now).1.files,
      g.project_id = pid → g.folder_id ≠ none := by
    apply organizeLoop_organizes pid now _ db 0
    intro f hf hpid hnone
    have : f ∈ db.files.filter fun f => f.project_id = pid ∧ f.folder_id = none := by
      simp [List.mem_filter, hf, hpid, hnone]
    exact List.mem_map_of_mem ProjectFile.id this
  refine ⟨fun f hf h => huntouched f hf (Or.inl h),
          fun f hf h => huntouched f hf (Or.inr h), horg, ?_⟩
  have hfilter : (autoOrganizeFiles db pid now).1.files.filter
      (fun f => f.project_id = pid ∧ f.folder_id = none) = [] := by
    rw [List.filter_eq_nil_iff]
    intro g hg
    simp only [decide_eq_true_eq, not_and]
    intro hpid
    exact horg g hg hpid
  show ((autoOrganizeFiles db pid now).1.files.filter
      fun f => f.project_id = pid ∧ f.folder_id = none).foldl
        (organizeStep pid now) ((autoOrganizeFiles db pid now).1, 0) = _
  rw [hfilter]
  rfl

/-- Witness for C6 on `dbA` (one unorganized PNG in project 0): the second
run organizes nothing. -/
theorem autoOrganizeFiles_idempotent_witness :
    autoOrganizeFiles (autoOrganizeFiles dbA 0 "T1").1 0 "T1" =
      ((autoOrganizeFiles dbA 0 "T1").1, 0) :=
  (autoOrganizeFiles_idempotent dbA 0 "T1" (by decide)).2.2.2

end AguaConecta
